import Mathlib

/-!
Shallow embedding of the statistics core of sorting.js and the geodesy core of
geojson.js.  JavaScript numbers are modelled by ℚ where the code only adds,
multiplies, divides and compares, and by ℝ where it calls transcendental
functions (cos, sin, sqrt, atan2, log).  A JS result that is not a finite
number (the value undefined, a thrown exception, NaN or Infinity) is modelled
by the value none of an Option codomain; each definition's doc comment states
which of those its none stands for.
-/

namespace UtilsJs

/-- Ascending numeric sort, the model of arr.sort((a, b) => a - b).
Insertion sort is stable and sorts ascending, as the JS comparator does. -/
def sortAsc (arr : List ℚ) : List ℚ :=
  List.insertionSort (· ≤ ·) arr

/-- JS array indexing arr[i] with an integer index: out-of-range and negative
indices yield undefined, modelled by none. -/
def jsIndex (l : List ℚ) (i : ℤ) : Option ℚ :=
  if 0 ≤ i then l.get? i.toNat else none

/-- Model of quantile(arr, q) from sorting.js:

  const quantile = (arr, q) => \x7b
      const sorted = arr.sort((a, b) => a - b); // sort ascending
      let pos = (sorted.length - 1) * q;
      if (pos % 1 === 0) \x7b return sorted[pos]; \x7d
      pos = Math.floor(pos);
      if (sorted[pos + 1] !== undefined) \x7b
          return (sorted[pos] + sorted[pos + 1]) / 2;
      \x7d
      return sorted[pos];
  \x7d;

pos % 1 === 0 holds exactly when pos is an integer, modelled by ⌊pos⌋ = pos;
on that branch sorted[pos] reads the array at the integer pos.  none models a
non-numeric JS result (undefined from an out-of-range read, or the NaN
produced by averaging with undefined).  Note the code averages the two
bracketing elements; it does not interpolate.  The value and the final content
of the caller's array (arr.sort mutates in place) are returned as a pair by
quantileRun; quantile is the value alone. -/
def quantileRun (arr : List ℚ) (q : ℚ) : Option ℚ × List ℚ :=
  let sorted := sortAsc arr
  let pos : ℚ := ((sorted.length : ℚ) - 1) * q
  let p : ℤ := ⌊pos⌋
  let value :=
    if (p : ℚ) = pos then
      jsIndex sorted p
    else
      if (jsIndex sorted (p + 1)).isSome then
        match jsIndex sorted p, jsIndex sorted (p + 1) with
        | some a, some b => some ((a + b) / 2)
        | _, _ => none
      else
        jsIndex sorted p
  (value, sorted)

/-- The value returned by quantile(arr, q). -/
def quantile (arr : List ℚ) (q : ℚ) : Option ℚ :=
  (quantileRun arr q).1

/-- Model of percentile(arr, val) from sorting.js: counts 1 per element
strictly below val and 0.5 per element equal to val, then returns
100 * count / arr.length.  For the empty array the JS code computes 0/0 = NaN,
modelled by none.  percentile only reads the array (forEach), so the caller's
array is unchanged; percentileRun returns the value and the final array
content as a pair. -/
def percentileRun (arr : List ℚ) (val : ℚ) : Option ℚ × List ℚ :=
  let count : ℚ :=
    (arr.map (fun v => if v < val then (1 : ℚ) else if v = val then 1/2 else 0)).sum
  let value :=
    if arr.length = 0 then none
    else some (100 * count / arr.length)
  (value, arr)

/-- The value returned by percentile(arr, val). -/
def percentile (arr : List ℚ) (val : ℚ) : Option ℚ :=
  (percentileRun arr val).1

/-- Model of median(arr) from sorting.js:

  const median = arr => \x7b
    const mid = Math.floor(arr.length / 2),
      nums = [...arr].sort((a, b) => a - b);
    return arr.length % 2 !== 0 ? nums[mid] : (nums[mid - 1] + nums[mid]) / 2;
  \x7d;

For the empty array the JS code computes undefined + undefined = NaN,
modelled by none. -/
def median (arr : List ℚ) : Option ℚ :=
  let mid : ℤ := arr.length / 2
  let nums := sortAsc arr
  if arr.length % 2 ≠ 0 then
    jsIndex nums mid
  else
    match jsIndex nums (mid - 1), jsIndex nums mid with
    | some a, some b => some ((a + b) / 2)
    | _, _ => none

/-- Model of sum(arr) from sorting.js: arr.reduce((a, b) => a + b, 0). -/
def sum (arr : List ℚ) : ℚ :=
  arr.foldl (· + ·) 0

/-- Model of mean(arr) = sum(arr) / arr.length.  For the empty array the JS
code yields 0/0 = NaN; the ℚ model yields 0 there, which is immaterial: the
only consumer below, variance, ignores the mean entirely (see deviations). -/
def mean (arr : List ℚ) : ℚ :=
  sum arr / arr.length

/-- Model of deviations(arr, mean) from sorting.js:

  const deviations = (arr, mean) => arr.map((num, mean) => num - mean);

The callback's second parameter, named mean, SHADOWS the function's mean
argument with the element index that Array.prototype.map supplies, so the
function actually returns arr[i] - i and never reads its mean argument. -/
def deviations (arr : List ℚ) (mean : ℚ) : List ℚ :=
  arr.enum.map (fun p => p.2 - (p.1 : ℚ))

/-- Model of squaredDeviations(arr) = arr.map(num => Math.pow(num, 2)). -/
def squaredDeviations (arr : List ℚ) : List ℚ :=
  arr.map (fun num => num ^ 2)

/-- Model of .reduce(sum) as used by variance in sorting.js, where sum is the
array-summing helper sum = arr => arr.reduce((a, b) => a + b, 0).  reduce
without an initial value throws a TypeError on an empty array; on a singleton
it returns the sole element without calling the callback; with two or more
elements it calls sum(acc, v) with a number acc, and acc.reduce throws a
TypeError.  none models the thrown exception. -/
def reduceSum (l : List ℚ) : Option ℚ :=
  match l with
  | [x] => some x
  | _ => none

/-- Model of variance(arr, sample) from sorting.js:

  const variance = (arr, sample) =>
    squaredDeviations(deviations(arr, mean(arr))).reduce(sum)
      / (arr.length - (sample ? 1 : 0));

none models a thrown TypeError (any array length other than 1, via reduceSum)
or the non-finite Infinity/NaN that JS produces when the divisor
arr.length - 1 is zero on a singleton with sample = true. -/
def variance (arr : List ℚ) (sample : Bool) : Option ℚ :=
  match reduceSum (squaredDeviations (deviations arr (mean arr))) with
  | none => none
  | some s =>
    let d : ℚ := (arr.length : ℚ) - (if sample then 1 else 0)
    if d = 0 then none else some (s / d)

/-- Model of standardDeviation(arr, sample) from sorting.js:

  const standardDeviation = (arr, sample) =>
    Math.sqrt(variance(arr)) - (sample ? 1 : 0);

variance is called with its sample parameter undefined (falsy), and the flag
instead subtracts 1 from the square root.  none models the TypeError
propagated out of variance. -/
noncomputable def standardDeviation (arr : List ℚ) (sample : Bool) : Option ℝ :=
  (variance arr false).map (fun v => Real.sqrt (v : ℝ) - (if sample then 1 else 0))

/-- Outcome of a JS call that may return a finite number, return Infinity, or
throw a ReferenceError. -/
inductive JsOutcome where
  | val (x : ℝ)
  | posInf
  | refError

/-- Model of pvalueToZscore(p) from sorting.js.  On the p < 0.5 branch the
code returns -percentile_z(1 - p), but no percentile_z is defined anywhere in
the repository, so the call throws a ReferenceError, modelled by refError.
For p == 1 it returns Infinity; the other branches evaluate rational
polynomial approximations. -/
noncomputable def pvalueToZscore (p : ℚ) : JsOutcome :=
  if p < 0.5 then JsOutcome.refError
  else if p > 0.92 then
    if p = 1 then JsOutcome.posInf
    else
      let r := Real.sqrt (-Real.log (1 - (p : ℝ)))
      JsOutcome.val ((((2.3212128*r+4.8501413)*r-2.2979648)*r-2.7871893)/
        ((1.6370678*r+3.5438892)*r+1))
  else
    let p2 := (p : ℝ) - 0.5
    let r := p2*p2
    JsOutcome.val (p2*(((-25.4410605*r+41.3911977)*r-18.6150006)*r+2.5066282)/
      ((((3.1308291*r-21.0622410)*r+23.0833674)*r-8.4735109)*r+1))

/-- Earth mean radius in metres, from geojson.js: WGS84_MEAN_RADIUS = 6_371_000.0. -/
noncomputable def WGS84_MEAN_RADIUS : ℝ := 6371000.0

/-- Model of pointInBoundingBox(bl, tr, p) from geojson.js.  A point is the
pair (lon, lat), mirroring the [lon, lat] arrays of the source:

  function pointInBoundingBox(bl, tr, p) \x7b
      let isLongInRange;
      if (tr[0] < bl[0]) \x7b
        isLongInRange = p[0] >= bl[0] || p[0] <= tr[0]
      \x7d else \x7b
        isLongInRange = p[0] >= bl[0] && p[0] <= tr[0]
      \x7d
      return (p[1] >= bl[1]  &&  p[1] <= tr[1]  && isLongInRange);
  \x7d -/
def pointInBoundingBox (bl tr p : ℚ × ℚ) : Bool :=
  let isLongInRange : Bool :=
    if tr.1 < bl.1 then decide (p.1 ≥ bl.1) || decide (p.1 ≤ tr.1)
    else decide (p.1 ≥ bl.1) && decide (p.1 ≤ tr.1)
  decide (p.2 ≥ bl.2) && decide (p.2 ≤ tr.2) && isLongInRange

/-- Model of haversineDistance(lon1, lat1, lon2, lat2, earthRadius) from
geojson.js, with Math trig modelled by the real functions.  The let bindings
shadow the parameters just as the source's *= assignments overwrite them. -/
noncomputable def haversineDistance (lon1 lat1 lon2 lat2 : ℝ)
    (earthRadius : ℝ := WGS84_MEAN_RADIUS) : ℝ :=
  let radians := Real.pi / 180
  let lon1 := lon1 * radians
  let lat1 := lat1 * radians
  let lon2 := lon2 * radians
  let lat2 := lat2 * radians
  let diam := 2 * earthRadius
  let dLon := lon2 - lon1
  let dLat := lat2 - lat1
  let a := ((1 - Real.cos dLat) +
    (1 - Real.cos dLon) * Real.cos lat1 * Real.cos lat2) / 2
  diam * Real.arcsin (Real.sqrt a)

/-- Math.atan2(y, x), the argument of the complex number x + y*i. -/
noncomputable def atan2 (y x : ℝ) : ℝ :=
  Complex.arg ⟨x, y⟩

/-- Model of vincentyDistance(lon1, lat1, lon2, lat2, earthRadius) from
geojson.js: the radius is divided by 1000 before scaling the central angle
d_sigma = atan2(e, h). -/
noncomputable def vincentyDistance (lon1 lat1 lon2 lat2 : ℝ)
    (earthRadius : ℝ := WGS84_MEAN_RADIUS) : ℝ :=
  let earthRadiusKm := earthRadius / 1000
  let radians := Real.pi / 180
  let lon1 := lon1 * radians
  let lat1 := lat1 * radians
  let lon2 := lon2 * radians
  let lat2 := lat2 * radians
  let d_lon := |lon1 - lon2|
  let a := (Real.cos lat2 * Real.sin d_lon) ^ 2
  let b := Real.cos lat1 * Real.sin lat2
  let c := Real.sin lat1 * Real.cos lat2 * Real.cos d_lon
  let d := (b - c) ^ 2
  let e := Real.sqrt (a + d)
  let f := Real.sin lat1 * Real.sin lat2
  let g := Real.cos lat1 * Real.cos lat2 * Real.cos d_lon
  let h := f + g
  let d_sigma := atan2 e h
  earthRadiusKm * d_sigma

/-- Model of String.prototype.toLowerCase as a character-wise lowercase map;
it agrees with the JS method on the ASCII unit names used below. -/
def jsToLower (s : String) : String :=
  String.mk (s.data.map Char.toLower)

/-- Model of validateEarthRadius(unit) from geojson.js: lowercases the unit,
looks it up in the fixed radius table and throws on anything else (the error
is modelled by Except.error carrying the message).  The table's key for
nautical miles is spelled nuaticalmiles in the source. -/
def validateEarthRadius (unit : String) : Except String ℚ :=
  let u := jsToLower unit
  if u = "m" then Except.ok 6371008.7714
  else if u = "meters" then Except.ok 6371008.7714
  else if u = "metres" then Except.ok 6371008.7714
  else if u = "km" then Except.ok 6371.009
  else if u = "kilometers" then Except.ok 6371.009
  else if u = "kilometres" then Except.ok 6371.009
  else if u = "mi" then Except.ok 3958.761
  else if u = "miles" then Except.ok 3958.761
  else if u = "nm" then Except.ok 3440.070
  else if u = "nuaticalmiles" then Except.ok 3440.070
  else if u = "yd" then Except.ok 6967420
  else if u = "yards" then Except.ok 6967420
  else if u = "ft" then Except.ok 20902260
  else if u = "feets" then Except.ok 20902260
  else Except.error ("Not a valid unit: " ++ u)

example : quantile [(0 : ℚ), 10] (1/4) = some 5 := by
  norm_num [quantile, quantileRun, sortAsc, jsIndex, List.insertionSort, List.orderedInsert, Int.reduceToNat]
example : quantile [(0 : ℚ), 10] (1/2) = some 5 := by
  norm_num [quantile, quantileRun, sortAsc, jsIndex, List.insertionSort, List.orderedInsert, Int.reduceToNat]
example : quantile [(3 : ℚ), 1, 2] (1/2) = some 2 := by
  norm_num [quantile, quantileRun, sortAsc, jsIndex, List.insertionSort, List.orderedInsert, Int.reduceToNat]
example : quantile [(10 : ℚ), 20] 1 = some 20 := by
  norm_num [quantile, quantileRun, sortAsc, jsIndex, List.insertionSort, List.orderedInsert, Int.reduceToNat]
example : median [(3 : ℚ), 1, 2] = some 2 := by
  norm_num [median, sortAsc, jsIndex, List.insertionSort, List.orderedInsert, Int.reduceToNat]
example : median [(4 : ℚ), 1, 2, 3] = some (5/2) := by
  norm_num [median, sortAsc, jsIndex, List.insertionSort, List.orderedInsert] <;> simp <;>
    norm_num
example : quantile [(4 : ℚ), 1, 2, 3] (1/2) = some (5/2) := by
  norm_num [quantile, quantileRun, sortAsc, jsIndex, List.insertionSort,
    List.orderedInsert] <;> simp <;> norm_num
example : percentile [(1 : ℚ), 2, 3, 4, 5] 3 = some 50 := by
  norm_num [percentile, percentileRun]
example : (quantileRun [(2 : ℚ), 1] 0).2 = [1, 2] := by
  norm_num [quantileRun, sortAsc, List.insertionSort, List.orderedInsert]

example : variance [(2 : ℚ)] false = some 4 := by norm_num [variance, reduceSum,
  squaredDeviations, deviations, mean, sum]
example : variance [(2 : ℚ)] true = none := by norm_num [variance, reduceSum,
  squaredDeviations, deviations, mean, sum]
example : variance [(1 : ℚ), 2] true = none := by norm_num [variance, reduceSum,
  squaredDeviations, deviations, mean, sum, List.enum, List.enumFrom]
example : validateEarthRadius "nauticalmiles" =
    Except.error "Not a valid unit: nauticalmiles" := rfl
example : validateEarthRadius "nuaticalmiles" = Except.ok (3440.070 : ℚ) := rfl
example : validateEarthRadius "KM" = Except.ok (6371.009 : ℚ) := rfl
example : pointInBoundingBox (170, -10) (-170, 10) (175, 0) = true := by decide
example : pointInBoundingBox (170, -10) (-170, 10) (0, 0) = false := by decide
example : pvalueToZscore (3/10) = JsOutcome.refError := by
  norm_num [pvalueToZscore]
example : pvalueToZscore 1 = JsOutcome.posInf := by
  norm_num [pvalueToZscore]

lemma sortAsc_length (arr : List ℚ) : (sortAsc arr).length = arr.length := by
  simp [sortAsc, List.length_insertionSort]

lemma jsIndex_natCast (l : List ℚ) (k : ℕ) : jsIndex l (k : ℤ) = l.get? k := by
  simp [jsIndex]

lemma reduceSum_eq_none (l : List ℚ) (h : l.length ≠ 1) : reduceSum l = none := by
  match l with
  | [] => rfl
  | [x] => exact absurd rfl h
  | x :: y :: t => rfl

/-- C7: variance, as written, cannot relate sample and population values for
any sequence of length at least 2: squaredDeviations(deviations(...)).reduce(sum)
calls the array helper sum as a reduce callback, which throws a TypeError on
every array with two or more elements, so variance throws there for either
flag value. -/
theorem variance_throws_on_length_ge_two (arr : List ℚ) (sample : Bool)
    (h : 2 ≤ arr.length) : variance arr sample = none := by
  have hlen : (squaredDeviations (deviations arr (mean arr))).length = arr.length := by
    simp [squaredDeviations, deviations]
  have hnone : reduceSum (squaredDeviations (deviations arr (mean arr))) = none :=
    reduceSum_eq_none _ (by omega)
  simp [variance, hnone]

/-- Witness for variance_throws_on_length_ge_two at arr = [1, 2]. -/
theorem variance_throws_on_length_ge_two_witness :
    2 ≤ ([(1 : ℚ), 2] : List ℚ).length ∧ variance [(1 : ℚ), 2] true = none :=
  ⟨by decide, variance_throws_on_length_ge_two [(1 : ℚ), 2] true (by decide)⟩

/-- C2: standardDeviation does not forward its sample flag to variance — it
calls variance(arr) with the flag undefined and then subtracts 1 from the
square root when the flag is truthy.  At arr = [2] the code returns
sqrt(variance([2])) - 1 = 1 with the flag and 2 without it, while
variance([2], true) itself is a division by zero (Infinity in JS, none in the
model), so the claimed sqrt-of-flagged-variance relationship fails. -/
theorem standardDeviation_subtracts_flag :
    standardDeviation [(2 : ℚ)] true = some 1 ∧
    standardDeviation [(2 : ℚ)] false = some 2 ∧
    variance [(2 : ℚ)] true = none := by
  have hv : variance [(2 : ℚ)] false = some 4 := by
    norm_num [variance, reduceSum, squaredDeviations, deviations, mean, sum,
      List.enum, List.enumFrom]
  have hs : Real.sqrt (4 : ℝ) = 2 := by
    rw [show (4 : ℝ) = (2 : ℝ) ^ 2 by norm_num, Real.sqrt_sq (by norm_num)]
  refine ⟨?_, ?_, ?_⟩
  · rw [standardDeviation, hv]
    norm_num [hs]
  · rw [standardDeviation, hv]
    norm_num [hs]
  · norm_num [variance, reduceSum, squaredDeviations, deviations, mean, sum,
      List.enum, List.enumFrom]

/-- C3: for p below 0.5 the code calls percentile_z(1 - p), a function that is
defined nowhere in the repository, so pvalueToZscore(0.3) throws a
ReferenceError instead of returning -pvalueToZscore(0.7); the p == 1 branch
does return Infinity. -/
theorem pvalueToZscore_low_branch_throws :
    pvalueToZscore (3/10) = JsOutcome.refError ∧
    pvalueToZscore 1 = JsOutcome.posInf := by
  constructor
  · norm_num [pvalueToZscore]
  · norm_num [pvalueToZscore]

/-- C4: the radius table's key for nautical miles is misspelled nuaticalmiles,
so validateEarthRadius("nauticalmiles") throws instead of returning 3440.070,
while the misspelled key succeeds; the other documented keys behave as
claimed (shown here for m, KM in mixed case, mi, nm, yd, ft and feets). -/
theorem validateEarthRadius_nauticalmiles_typo :
    validateEarthRadius "nauticalmiles" =
      Except.error "Not a valid unit: nauticalmiles" ∧
    validateEarthRadius "nuaticalmiles" = Except.ok (3440.070 : ℚ) ∧
    validateEarthRadius "m" = Except.ok (6371008.7714 : ℚ) ∧
    validateEarthRadius "KM" = Except.ok (6371.009 : ℚ) ∧
    validateEarthRadius "mi" = Except.ok (3958.761 : ℚ) ∧
    validateEarthRadius "nm" = Except.ok (3440.070 : ℚ) ∧
    validateEarthRadius "yd" = Except.ok (6967420 : ℚ) ∧
    validateEarthRadius "ft" = Except.ok (20902260 : ℚ) ∧
    validateEarthRadius "feets" = Except.ok (20902260 : ℚ) ∧
    validateEarthRadius "furlongs" = Except.error "Not a valid unit: furlongs" :=
  ⟨rfl, rfl, rfl, rfl, rfl, rfl, rfl, rfl, rfl, rfl⟩

/-- C5: vincentyDistance always returns earthRadius / 1000 times the central
angle atan2(e, h), whatever the radius argument is, so the result is in
kilometres exactly when the radius is in metres. -/
theorem vincentyDistance_scales_radius_by_1000 (lon1 lat1 lon2 lat2 R : ℝ) :
    vincentyDistance lon1 lat1 lon2 lat2 R =
      R / 1000 *
      atan2
        (Real.sqrt
          ((Real.cos (lat2 * (Real.pi / 180)) *
              Real.sin |lon1 * (Real.pi / 180) - lon2 * (Real.pi / 180)|) ^ 2 +
           (Real.cos (lat1 * (Real.pi / 180)) * Real.sin (lat2 * (Real.pi / 180)) -
            Real.sin (lat1 * (Real.pi / 180)) * Real.cos (lat2 * (Real.pi / 180)) *
              Real.cos |lon1 * (Real.pi / 180) - lon2 * (Real.pi / 180)|) ^ 2))
        (Real.sin (lat1 * (Real.pi / 180)) * Real.sin (lat2 * (Real.pi / 180)) +
         Real.cos (lat1 * (Real.pi / 180)) * Real.cos (lat2 * (Real.pi / 180)) *
           Real.cos |lon1 * (Real.pi / 180) - lon2 * (Real.pi / 180)|) := rfl

/-- C8 counterexample: quantile sorts the caller's array in place — after
quantile([2, 1], 0) the array holds [1, 2], not its original contents. -/
theorem quantileRun_mutates_caller_array :
    (quantileRun [(2 : ℚ), 1] 0).2 ≠ [(2 : ℚ), 1] ∧
    (quantileRun [(2 : ℚ), 1] 0).2 = [(1 : ℚ), 2] := by
  constructor
  · norm_num [quantileRun, sortAsc, List.insertionSort, List.orderedInsert]
  · norm_num [quantileRun, sortAsc, List.insertionSort, List.orderedInsert]

/-- C8 amended: percentile never mutates the caller's array; quantile sorts
the caller's array in place, leaving it an ascending-sorted permutation of the
original elements. -/
theorem percentile_pure_quantile_sorts_in_place (arr : List ℚ) (q v : ℚ) :
    (percentileRun arr v).2 = arr ∧
    List.Perm ((quantileRun arr q).2) arr ∧
    List.Sorted (· ≤ ·) ((quantileRun arr q).2) := by
  refine ⟨rfl, ?_, ?_⟩
  · exact List.perm_insertionSort _ arr
  · exact List.sorted_insertionSort _ arr

/-- C9: pointInBoundingBox tests the latitude range normally and, when
topRight.lon < bottomLeft.lon (antimeridian wrap), accepts longitudes with an
OR of the two bounds instead of an AND; with bottomLeft [170, -10] and
topRight [-170, 10] the point [175, 0] is inside and [0, 0] is outside. -/
theorem pointInBoundingBox_spec :
    (∀ bl tr p : ℚ × ℚ,
       pointInBoundingBox bl tr p = true ↔
         (bl.2 ≤ p.2 ∧ p.2 ≤ tr.2 ∧
          (if tr.1 < bl.1 then (bl.1 ≤ p.1 ∨ p.1 ≤ tr.1)
           else (bl.1 ≤ p.1 ∧ p.1 ≤ tr.1)))) ∧
    pointInBoundingBox (170, -10) (-170, 10) (175, 0) = true ∧
    pointInBoundingBox (170, -10) (-170, 10) (0, 0) = false := by
  refine ⟨?_, by decide, by decide⟩
  intro bl tr p
  by_cases h : tr.1 < bl.1 <;>
    simp [pointInBoundingBox, h, and_assoc, ge_iff_le]

/-- C10: haversineDistance is symmetric in its two endpoints, for every
radius: swapping the points negates both angle differences, and cosine is
even. -/
theorem haversineDistance_symm (lon1 lat1 lon2 lat2 R : ℝ) :
    haversineDistance lon1 lat1 lon2 lat2 R =
      haversineDistance lon2 lat2 lon1 lat1 R := by
  simp only [haversineDistance]
  have ecos : ∀ x y : ℝ, Real.cos (x - y) = Real.cos (y - x) := by
    intro x y
    rw [← Real.cos_neg (x - y), neg_sub]
  rw [ecos (lat2 * (Real.pi / 180)) (lat1 * (Real.pi / 180)),
      ecos (lon2 * (Real.pi / 180)) (lon1 * (Real.pi / 180))]
  ring_nf

lemma get?_sortAsc_exists (arr : List ℚ) (k : ℕ) (h : k < arr.length) :
    ∃ v, (sortAsc arr).get? k = some v := by
  rw [List.get?_eq_get (by rw [sortAsc_length]; exact h)]
  exact ⟨_, rfl⟩

lemma quantile_eq_int (arr : List ℚ) (k : ℤ) (q : ℚ) (hk0 : 0 ≤ k)
    (hpos : (((sortAsc arr).length : ℚ) - 1) * q = (k : ℚ)) :
    quantile arr q = (sortAsc arr).get? k.toNat := by
  unfold quantile quantileRun
  simp only []
  rw [hpos, Int.floor_intCast, if_pos rfl]
  simp [jsIndex, hk0]

lemma quantile_eq_frac (arr : List ℚ) (k : ℤ) (q : ℚ) (hk0 : 0 ≤ k)
    (hfl : ⌊(((sortAsc arr).length : ℚ) - 1) * q⌋ = k)
    (hni : ((k : ℚ)) ≠ (((sortAsc arr).length : ℚ) - 1) * q)
    (a b : ℚ)
    (ha : (sortAsc arr).get? k.toNat = some a)
    (hb : (sortAsc arr).get? (k.toNat + 1) = some b) :
    quantile arr q = some ((a + b) / 2) := by
  have ha' : jsIndex (sortAsc arr) k = some a := by
    unfold jsIndex
    rw [if_pos hk0]
    exact ha
  have hb' : jsIndex (sortAsc arr) (k + 1) = some b := by
    have h1 : (0 : ℤ) ≤ k + 1 := by omega
    have h2 : (k + 1).toNat = k.toNat + 1 := by omega
    unfold jsIndex
    rw [if_pos h1, h2]
    exact hb
  unfold quantile quantileRun
  simp only []
  rw [hfl, if_neg hni, ha', hb']
  rfl

lemma median_odd (arr : List ℚ) (k : ℕ) (hk : arr.length = 2 * k + 1) :
    median arr = (sortAsc arr).get? k := by
  unfold median
  simp only []
  rw [if_pos (by omega : arr.length % 2 ≠ 0)]
  have hmid : ((arr.length : ℤ) / 2) = (k : ℤ) := by omega
  rw [hmid, jsIndex_natCast]

lemma median_even (arr : List ℚ) (k : ℕ) (hk : arr.length = 2 * k) (hk1 : 1 ≤ k)
    (a b : ℚ)
    (ha : (sortAsc arr).get? (k - 1) = some a)
    (hb : (sortAsc arr).get? k = some b) :
    median arr = some ((a + b) / 2) := by
  have ha' : jsIndex (sortAsc arr) ((k : ℤ) - 1) = some a := by
    have h1 : (0 : ℤ) ≤ (k : ℤ) - 1 := by omega
    have h2 : ((k : ℤ) - 1).toNat = k - 1 := by omega
    unfold jsIndex
    rw [if_pos h1, h2]
    exact ha
  have hb' : jsIndex (sortAsc arr) (k : ℤ) = some b := by
    rw [jsIndex_natCast]; exact hb
  unfold median
  simp only []
  rw [if_neg (by omega : ¬arr.length % 2 ≠ 0)]
  have hmid : ((arr.length : ℤ) / 2) = (k : ℤ) := by omega
  rw [hmid]
  have hsub : (k : ℤ) - 1 = ((k : ℤ)) - 1 := rfl
  rw [ha', hb']

/-- C6: for every nonempty sequence, quantile(S, 0.5) equals median(S), and
median is the standard definition: the middle element of the ascending-sorted
sequence for odd length, the average of the two middle elements for even
length. -/
theorem quantile_half_eq_median (arr : List ℚ) (hne : arr ≠ []) :
    quantile arr (1/2) = median arr ∧
    (arr.length % 2 = 1 → median arr = (sortAsc arr).get? (arr.length / 2)) ∧
    (arr.length % 2 = 0 → ∃ a b,
      (sortAsc arr).get? (arr.length / 2 - 1) = some a ∧
      (sortAsc arr).get? (arr.length / 2) = some b ∧
      median arr = some ((a + b) / 2)) := by
  have hn1 : 1 ≤ arr.length := List.length_pos.mpr hne
  have hsl := sortAsc_length arr
  rcases Nat.even_or_odd arr.length with he | ho
  · obtain ⟨r, hr⟩ := he
    have hk : arr.length = 2 * r := by omega
    have hk1 : 1 ≤ r := by omega
    obtain ⟨a, ha⟩ := get?_sortAsc_exists arr (r - 1) (by omega)
    obtain ⟨b, hb⟩ := get?_sortAsc_exists arr r (by omega)
    have hm : median arr = some ((a + b) / 2) := median_even arr r hk hk1 a b ha hb
    have hq : quantile arr (1/2) = some ((a + b) / 2) := by
      apply quantile_eq_frac arr ((r : ℤ) - 1) (1/2) (by omega)
      · rw [hsl, hk, Int.floor_eq_iff]
        constructor
        · push_cast
          linarith
        · push_cast
          linarith
      · rw [hsl, hk]
        push_cast
        intro hcon
        linarith
      · have ht : ((r : ℤ) - 1).toNat = r - 1 := by omega
        rw [ht]
        exact ha
      · have ht : ((r : ℤ) - 1).toNat + 1 = r := by omega
        rw [ht]
        exact hb
    refine ⟨by rw [hq, hm], ?_, ?_⟩
    · intro hodd
      omega
    · intro _
      refine ⟨a, b, ?_, ?_, hm⟩
      · have ht : arr.length / 2 - 1 = r - 1 := by omega
        rw [ht]
        exact ha
      · have ht : arr.length / 2 = r := by omega
        rw [ht]
        exact hb
  · obtain ⟨k, hk⟩ := ho
    have hm : median arr = (sortAsc arr).get? k := median_odd arr k hk
    have hq : quantile arr (1/2) = (sortAsc arr).get? k := by
      have h := quantile_eq_int arr (k : ℤ) (1/2) (by omega)
        (by rw [hsl, hk]; push_cast; ring)
      have ht : ((k : ℤ)).toNat = k := by omega
      rw [ht] at h
      exact h
    refine ⟨by rw [hq, hm], ?_, ?_⟩
    · intro _
      have ht : arr.length / 2 = k := by omega
      rw [ht]
      exact hm
    · intro heven
      omega

/-- Witness for quantile_half_eq_median at arr = [3, 1, 2]. -/
theorem quantile_half_eq_median_witness :
    (([(3 : ℚ), 1, 2] : List ℚ) ≠ []) ∧
    (quantile [(3 : ℚ), 1, 2] (1/2) = median [(3 : ℚ), 1, 2] ∧
     (([(3 : ℚ), 1, 2] : List ℚ).length % 2 = 1 →
       median [(3 : ℚ), 1, 2] =
         (sortAsc [(3 : ℚ), 1, 2]).get? (([(3 : ℚ), 1, 2] : List ℚ).length / 2)) ∧
     (([(3 : ℚ), 1, 2] : List ℚ).length % 2 = 0 → ∃ a b,
       (sortAsc [(3 : ℚ), 1, 2]).get?
         (([(3 : ℚ), 1, 2] : List ℚ).length / 2 - 1) = some a ∧
       (sortAsc [(3 : ℚ), 1, 2]).get?
         (([(3 : ℚ), 1, 2] : List ℚ).length / 2) = some b ∧
       median [(3 : ℚ), 1, 2] = some ((a + b) / 2))) :=
  ⟨by simp, quantile_half_eq_median [(3 : ℚ), 1, 2] (by simp)⟩

/-- C1 counterexample: at arr = [0, 10] and q = 1/4 the code returns 5, the
plain average of the two bracketing sorted elements, not the linear
interpolation sorted[0] + (pos - 0) * (sorted[1] - sorted[0]) = 2.5 the claim
demands. -/
theorem quantile_quarter_not_interpolated :
    quantile [(0 : ℚ), 10] (1/4) = some 5 ∧
    quantile [(0 : ℚ), 10] (1/4) ≠ some ((0 : ℚ) + ((1/4 : ℚ) - 0) * (10 - 0)) := by
  have h : quantile [(0 : ℚ), 10] (1/4) = some 5 := by
    norm_num [quantile, quantileRun, sortAsc, jsIndex, List.insertionSort,
      List.orderedInsert]
  refine ⟨h, ?_⟩
  rw [h]
  intro hcon
  simp only [Option.some.injEq] at hcon
  norm_num at hcon

/-- C1 amended: for a nonempty sequence and q in [0, 1], quantile sorts
ascending and computes pos = (n - 1) * q; when pos is an integer it returns
the sorted element there, and otherwise it returns the arithmetic mean of the
two bracketing sorted elements at floor(pos) and floor(pos) + 1 (which both
exist), not their linear interpolation. -/
theorem quantile_interpolation_amended (arr : List ℚ) (q : ℚ)
    (hne : arr ≠ []) (h0 : 0 ≤ q) (h1 : q ≤ 1) :
    ((((⌊((arr.length : ℚ) - 1) * q⌋ : ℤ) : ℚ) = ((arr.length : ℚ) - 1) * q →
       ∃ v, (sortAsc arr).get? (⌊((arr.length : ℚ) - 1) * q⌋).toNat = some v ∧
         quantile arr q = some v) ∧
     (((⌊((arr.length : ℚ) - 1) * q⌋ : ℤ) : ℚ) ≠ ((arr.length : ℚ) - 1) * q →
       ∃ a b, (sortAsc arr).get? (⌊((arr.length : ℚ) - 1) * q⌋).toNat = some a ∧
         (sortAsc arr).get? ((⌊((arr.length : ℚ) - 1) * q⌋).toNat + 1) = some b ∧
         quantile arr q = some ((a + b) / 2))) := by
  have hn1 : 1 ≤ arr.length := List.length_pos.mpr hne
  have hsl := sortAsc_length arr
  have hge : (0 : ℚ) ≤ (arr.length : ℚ) - 1 := by
    have hc : (1 : ℚ) ≤ (arr.length : ℚ) := by exact_mod_cast hn1
    linarith
  have hpos0 : 0 ≤ ((arr.length : ℚ) - 1) * q := mul_nonneg hge h0
  have hposle : ((arr.length : ℚ) - 1) * q ≤ (arr.length : ℚ) - 1 :=
    mul_le_of_le_one_right hge h1
  have hfl0 : 0 ≤ ⌊((arr.length : ℚ) - 1) * q⌋ := Int.floor_nonneg.mpr hpos0
  constructor
  · intro hint
    have hkle : ((⌊((arr.length : ℚ) - 1) * q⌋ : ℤ) : ℚ) ≤ (arr.length : ℚ) - 1 := by
      rw [hint]
      exact hposle
    have hkle2 : ⌊((arr.length : ℚ) - 1) * q⌋ ≤ (arr.length : ℤ) - 1 := by
      exact_mod_cast hkle
    have hlt : (⌊((arr.length : ℚ) - 1) * q⌋).toNat < arr.length := by omega
    obtain ⟨v, hv⟩ := get?_sortAsc_exists arr (⌊((arr.length : ℚ) - 1) * q⌋).toNat hlt
    refine ⟨v, hv, ?_⟩
    have h := quantile_eq_int arr ⌊((arr.length : ℚ) - 1) * q⌋ q hfl0
      (by rw [hsl]; exact hint.symm)
    rw [h]
    exact hv
  · intro hnint
    have hposlt : ((arr.length : ℚ) - 1) * q < (arr.length : ℚ) - 1 := by
      rcases lt_or_eq_of_le hposle with h | h
      · exact h
      · exfalso
        apply hnint
        rw [h]
        have hc : ((arr.length : ℚ) - 1) = (((arr.length : ℤ) - 1 : ℤ) : ℚ) := by
          push_cast
          ring
        rw [hc, Int.floor_intCast]
    have hklt : ⌊((arr.length : ℚ) - 1) * q⌋ < (arr.length : ℤ) - 1 := by
      apply Int.floor_lt.mpr
      push_cast
      exact hposlt
    obtain ⟨a, ha⟩ := get?_sortAsc_exists arr (⌊((arr.length : ℚ) - 1) * q⌋).toNat
      (by omega)
    obtain ⟨b, hb⟩ := get?_sortAsc_exists arr
      ((⌊((arr.length : ℚ) - 1) * q⌋).toNat + 1) (by omega)
    refine ⟨a, b, ha, hb, ?_⟩
    exact quantile_eq_frac arr ⌊((arr.length : ℚ) - 1) * q⌋ q hfl0
      (by rw [hsl]) (by rw [hsl]; exact hnint) a b ha hb

/-- Witness for quantile_interpolation_amended at arr = [0, 10], q = 1/4. -/
theorem quantile_interpolation_amended_witness :
    ∃ a b,
      (sortAsc [(0 : ℚ), 10]).get?
        (⌊((([(0 : ℚ), 10] : List ℚ).length : ℚ) - 1) * (1/4)⌋).toNat = some a ∧
      (sortAsc [(0 : ℚ), 10]).get?
        ((⌊((([(0 : ℚ), 10] : List ℚ).length : ℚ) - 1) * (1/4)⌋).toNat + 1) = some b ∧
      quantile [(0 : ℚ), 10] (1/4) = some ((a + b) / 2) :=
  (quantile_interpolation_amended [(0 : ℚ), 10] (1/4) (by simp) (by norm_num)
      (by norm_num)).2 (by norm_num)

end UtilsJs
